import Mathlib

/-!
Verification development for the Deep-Learning-Experiments repository.

The repository holds two Jupyter notebooks:
* cnn-mnist.ipynb — a CNN on MNIST built with the Sequential API
  (Conv2D-MaxPool, Conv2D-MaxPool, Conv2D, Flatten, Dense, Activation softmax);
* the Y-Network notebook — the same dataset, with two convolutional branches
  built in depth-3 for-loops, merged by concatenate, then Flatten and a
  softmax Dense head, using the functional Model API.

The definitions below are a shallow embedding of the executed notebook code:
the layer lists mirror the model-building cells, the statement lists mirror the
code cells statement by statement in source order, and to_categorical and the
pixel normalization mirror the preprocessing lines.  Keyword arguments that are
strings in the source (padding, activation, optimizer, loss, metrics) are kept
as strings.
-/

/-- The dataset loaded by both notebooks: mnist.load_data(). -/
inductive Dataset where
  | mnist
  deriving DecidableEq

/-- The four dataset arrays bound at top level in each notebook. -/
inductive Var where
  | x_train
  | y_train
  | x_test
  | y_test
  deriving DecidableEq

/-- Keras merge functions mentioned by the Y-Network notebook; the code uses
concatenate. -/
inductive MergeOp where
  | concatenate
  | add
  | multiply
  deriving DecidableEq

/-- The layer kinds the executed notebook cells construct.  A Conv2D carries
filters, kernel_size, padding, activation and dilation_rate (Keras default 1
when the source omits it).  A Dense carries its unit count and optional
activation keyword.  The input_shape keyword on the first Sequential Conv2D
is shape metadata, not a layer of its own, and is not modelled.  Dropout
layers appear in the source only inside comments and are never executed. -/
inductive Layer where
  | conv2D (filters kernel_size : Nat) (padding activation : String) (dilation_rate : Nat)
  | maxPooling2D
  | flatten
  | dense (units : Nat) (activation : Option String)
  | activationLayer (a : String)
  deriving DecidableEq

/-- Replace the dilation_rate of a Conv2D layer; identity on other layers. -/
def setDilation (d : Nat) : Layer → Layer
  | Layer.conv2D f k p a _ => Layer.conv2D f k p a d
  | l => l

/-- Number of Conv2D layers in a layer list. -/
def countConv : List Layer → Nat
  | [] => 0
  | Layer.conv2D _ _ _ _ _ :: rest => countConv rest + 1
  | _ :: rest => countConv rest

/-- Number of MaxPooling2D layers in a layer list. -/
def countPool : List Layer → Nat
  | [] => 0
  | Layer.maxPooling2D :: rest => countPool rest + 1
  | _ :: rest => countPool rest

/-- Network parameter filters = 64, set in both notebooks. -/
def filters : Nat := 64

/-- Network parameter kernel_size = 3, set in both notebooks. -/
def kernel_size : Nat := 3

/-- Network parameter batch_size = 128, set in both notebooks. -/
def batch_size : Nat := 128

/-- Branch depth of the Y-Network construction loops: depth = 3. -/
def depth : Nat := 3

/-- The layer stack of the Sequential model cell of cnn-mnist.ipynb, with n
the value of num_labels.  Each model.add call contributes one entry, in
source order; the Conv2D layers pass padding="same" and activation="relu"
and leave dilation_rate at the Keras default 1; the Dense layer passes no
activation keyword and is followed by a separate Activation softmax layer. -/
def buildSeqModel (n : Nat) : List Layer :=
  [ Layer.conv2D filters kernel_size "same" "relu" 1,
    Layer.maxPooling2D,
    Layer.conv2D filters kernel_size "same" "relu" 1,
    Layer.maxPooling2D,
    Layer.conv2D filters kernel_size "same" "relu" 1,
    Layer.flatten,
    Layer.dense n none,
    Layer.activationLayer "softmax" ]

/-- The layer sequence applied by one branch-construction for-loop of the
Y-Network notebook: for i in range(depth), add a Conv2D (filters,
kernel_size, padding="same", activation="relu", with the given
dilation_rate), then a MaxPooling2D when i < depth - 1.  The left branch
omits dilation_rate (Keras default 1); the right branch passes 2. -/
def branchLayers (dilation_rate : Nat) : List Layer :=
  (List.range depth).foldl
    (fun acc i =>
      let acc2 := acc ++ [Layer.conv2D filters kernel_size "same" "relu" dilation_rate]
      if i < depth - 1 then acc2 ++ [Layer.maxPooling2D] else acc2)
    []

/-- The convolutional trunk of the Sequential model: its layers before
Flatten, i.e. the per-branch part that the Y-Network loops correspond to. -/
def seqTrunk (n : Nat) : List Layer := (buildSeqModel n).take 5

/-- The two branches declared by the Y-Network notebook, in source order:
the left branch (default dilation 1) and the right branch (dilation_rate 2). -/
def yBranches : List (List Layer) := [branchLayers 1, branchLayers 2]

/-- A model as the notebooks declare one: either a Sequential layer stack
over a single input, or a functional model with one Input per branch,
a merge of the branch outputs, and a head applied after the merge. -/
inductive ModelDef where
  | sequential (layers : List Layer)
  | functional (branches : List (List Layer)) (merge : MergeOp)
      (head : List Layer) (name : String)
  deriving DecidableEq

/-- Number of model inputs: one for a Sequential model, one per branch for a
functional model. -/
def numInputsOf : ModelDef → Nat
  | ModelDef.sequential _ => 1
  | ModelDef.functional branches _ _ _ => branches.length

/-- The merge operation of a functional model, none for Sequential. -/
def mergeOf : ModelDef → Option MergeOp
  | ModelDef.sequential _ => none
  | ModelDef.functional _ m _ _ => some m

/-- The post-merge head of a functional model, none for Sequential. -/
def headOf : ModelDef → Option (List Layer)
  | ModelDef.sequential _ => none
  | ModelDef.functional _ _ h _ => some h

/-- The model built by cnn-mnist.ipynb. -/
def seqModel (n : Nat) : ModelDef := ModelDef.sequential (buildSeqModel n)

/-- The model built by the Y-Network notebook: Model([left_inputs,
right_inputs], outputs, name="Y_Network"), where outputs is
Dense(num_labels, activation="softmax") applied to the Flatten of the
concatenation of the two branch outputs. -/
def yModel (n : Nat) : ModelDef :=
  ModelDef.functional [branchLayers 1, branchLayers 2] MergeOp.concatenate
    [Layer.flatten, Layer.dense n (some "softmax")] "Y_Network"

/-- The models the repository constructs, one per notebook. -/
def repositoryModels (n : Nat) : List ModelDef := [seqModel n, yModel n]

/-- Arguments of a model.compile call, as the string keywords of the source. -/
structure CompileConfig where
  loss : String
  optimizer : String
  metrics : List String
  deriving DecidableEq

/-- Arguments of a model.fit call: the input arrays (one entry per model
input), the label array, the optional validation_data pair, epochs and
batch_size. -/
structure FitCall where
  inputs : List Var
  labels : Var
  validation : Option (List Var × Var)
  epochs : Nat
  batch : Nat
  deriving DecidableEq

/-- Arguments of a model.evaluate call. -/
structure EvalCall where
  inputs : List Var
  labels : Var
  batch : Nat
  deriving DecidableEq

/-- compile call of cnn-mnist.ipynb. -/
def seqCompileCfg : CompileConfig :=
  ⟨"categorical_crossentropy", "sgd", ["accuracy"]⟩

/-- compile call of the Y-Network notebook. -/
def yCompileCfg : CompileConfig :=
  ⟨"categorical_crossentropy", "sgd", ["accuracy"]⟩

/-- fit call of cnn-mnist.ipynb: model.fit(x_train, y_train, epochs=20,
batch_size=batch_size). -/
def seqFit : FitCall := ⟨[Var.x_train], Var.y_train, none, 20, 128⟩

/-- evaluate call of cnn-mnist.ipynb. -/
def seqEval : EvalCall := ⟨[Var.x_test], Var.y_test, 128⟩

/-- fit call of the Y-Network notebook: model.fit([x_train, x_train],
y_train, validation_data=([x_test, x_test], y_test), epochs=20,
batch_size=batch_size). -/
def yFit : FitCall :=
  ⟨[Var.x_train, Var.x_train], Var.y_train,
   some ([Var.x_test, Var.x_test], Var.y_test), 20, 128⟩

/-- evaluate call of the Y-Network notebook: model.evaluate([x_test,
x_test], y_test, batch_size=batch_size). -/
def yEval : EvalCall := ⟨[Var.x_test, Var.x_test], Var.y_test, 128⟩

/-- One executed top-level statement of a notebook code cell.  Each
constructor corresponds to one statement kind occurring in the source;
plotModel is the plot_model(model, to_file=...) call, present in the source
only inside comments. -/
inductive BasicStmt where
  | libImports
  | loadData (d : Dataset)
  | computeNumLabels
  | toCategorical (v : Var)
  | reshape (v : Var)
  | normalize (v : Var)
  | setParams
  | buildBranch (dilation_rate : Nat)
  | mergeBranches (m : MergeOp)
  | buildHead
  | buildModel
  | summary
  | plotModel (toFile : String)
  | compile (c : CompileConfig)
  | fit (f : FitCall)
  | evaluate (e : EvalCall)
  | printAccuracy
  deriving DecidableEq

/-- The executed statements of cnn-mnist.ipynb, in source order: the
import/preprocessing cell, the hyper-parameter cell, the Sequential model
cell with its summary, and the compile/fit/evaluate/print cell. -/
def seqStmts : List BasicStmt :=
  [ BasicStmt.libImports,
    BasicStmt.loadData Dataset.mnist,
    BasicStmt.computeNumLabels,
    BasicStmt.toCategorical Var.y_train,
    BasicStmt.toCategorical Var.y_test,
    BasicStmt.reshape Var.x_train,
    BasicStmt.reshape Var.x_test,
    BasicStmt.normalize Var.x_train,
    BasicStmt.normalize Var.x_test,
    BasicStmt.setParams,
    BasicStmt.buildModel,
    BasicStmt.summary,
    BasicStmt.compile seqCompileCfg,
    BasicStmt.fit seqFit,
    BasicStmt.evaluate seqEval,
    BasicStmt.printAccuracy ]

/-- The executed statements of the Y-Network notebook, in source order: the
import/preprocessing/parameter cell, the two branch-loop cells, the
merge/head/Model/summary cell, and the compile/fit/evaluate/print cell. -/
def yStmts : List BasicStmt :=
  [ BasicStmt.libImports,
    BasicStmt.loadData Dataset.mnist,
    BasicStmt.computeNumLabels,
    BasicStmt.toCategorical Var.y_train,
    BasicStmt.toCategorical Var.y_test,
    BasicStmt.reshape Var.x_train,
    BasicStmt.reshape Var.x_test,
    BasicStmt.normalize Var.x_train,
    BasicStmt.normalize Var.x_test,
    BasicStmt.setParams,
    BasicStmt.buildBranch 1,
    BasicStmt.buildBranch 2,
    BasicStmt.mergeBranches MergeOp.concatenate,
    BasicStmt.buildHead,
    BasicStmt.buildModel,
    BasicStmt.summary,
    BasicStmt.compile yCompileCfg,
    BasicStmt.fit yFit,
    BasicStmt.evaluate yEval,
    BasicStmt.printAccuracy ]

/-- Statements present in cnn-mnist.ipynb only as comments (never executed). -/
def seqCommented : List BasicStmt := [BasicStmt.plotModel "cnn-mnist.png"]

/-- Statements present in the Y-Network notebook only as comments. -/
def yCommented : List BasicStmt := [BasicStmt.plotModel "cnn-y-network.png"]

/-- Comment lines of the compile cell of cnn-mnist.ipynb that mention an
optimizer. -/
def seqCommentLines : List String := ["use of adam optimizer"]

/-- Comment lines of the compile cell of the Y-Network notebook that mention
an optimizer. -/
def yCommentLines : List String :=
  ["classifier loss, Adam optimizer, classifier accuracy"]

/-- The pipeline phases of the top-level program of either notebook. -/
inductive Phase where
  | load
  | build
  | compile
  | fit
  | evaluate
  | print
  deriving DecidableEq

/-- Pipeline phase of a statement: dataset loading and preprocessing belong
to the load phase; branch, merge, head and Model construction to the build
phase; compile, fit, evaluate and the accuracy print to their own phases;
imports, hyper-parameter assignments and summary to none. -/
def phase : BasicStmt → Option Phase
  | BasicStmt.loadData _ => some Phase.load
  | BasicStmt.computeNumLabels => some Phase.load
  | BasicStmt.toCategorical _ => some Phase.load
  | BasicStmt.reshape _ => some Phase.load
  | BasicStmt.normalize _ => some Phase.load
  | BasicStmt.buildBranch _ => some Phase.build
  | BasicStmt.mergeBranches _ => some Phase.build
  | BasicStmt.buildHead => some Phase.build
  | BasicStmt.buildModel => some Phase.build
  | BasicStmt.compile _ => some Phase.compile
  | BasicStmt.fit _ => some Phase.fit
  | BasicStmt.evaluate _ => some Phase.evaluate
  | BasicStmt.printAccuracy => some Phase.print
  | _ => none

/-- Is this statement a to_categorical conversion. -/
def isToCat : BasicStmt → Bool
  | BasicStmt.toCategorical _ => true
  | _ => false

/-- Is this statement a call on the model object (construction included). -/
def isModelCall : BasicStmt → Bool
  | BasicStmt.buildBranch _ => true
  | BasicStmt.mergeBranches _ => true
  | BasicStmt.buildHead => true
  | BasicStmt.buildModel => true
  | BasicStmt.summary => true
  | BasicStmt.compile _ => true
  | BasicStmt.fit _ => true
  | BasicStmt.evaluate _ => true
  | _ => false

/-- Is this statement a model.compile call. -/
def isCompileStmt : BasicStmt → Bool
  | BasicStmt.compile _ => true
  | _ => false

/-- Is this statement a model.fit call. -/
def isFitStmt : BasicStmt → Bool
  | BasicStmt.fit _ => true
  | _ => false

/-- Is this statement a model.evaluate call. -/
def isEvalStmt : BasicStmt → Bool
  | BasicStmt.evaluate _ => true
  | _ => false

/-- Is this statement a plot_model call. -/
def isPlotModel : BasicStmt → Bool
  | BasicStmt.plotModel _ => true
  | _ => false

/-- The dataset arrays a statement rebinds: mnist.load_data() binds all
four, and each to_categorical / reshape / normalization assignment rebinds
its own target. -/
def assigns : BasicStmt → List Var
  | BasicStmt.loadData _ => [Var.x_train, Var.y_train, Var.x_test, Var.y_test]
  | BasicStmt.toCategorical v => [v]
  | BasicStmt.reshape v => [v]
  | BasicStmt.normalize v => [v]
  | _ => []

/-- In statement list L, the normalization of v is the last assignment to v
and it precedes the fit and evaluate calls. -/
def normalizedLast (L : List BasicStmt) (v : Var) : Bool :=
  let ni := L.findIdx fun s => decide (s = BasicStmt.normalize v)
  ((List.range L.length).all fun i =>
      !(decide (v ∈ assigns (L.getD i BasicStmt.libImports))) || decide (i ≤ ni))
    && decide (ni < L.findIdx isFitStmt)
    && decide (ni < L.findIdx isEvalStmt)

/-- Externally visible effects a statement produces when run: printed text
(summary, the per-epoch fit log, the evaluate progress line, the final
accuracy print) or a written file (only plot_model with to_file).  Effects
internal to the framework, such as the dataset download cache of
load_data, are owned by the framework, not by the notebook code. -/
inductive Effect where
  | printText
  | writeFile (path : String)
  deriving DecidableEq

/-- Effects of each executed statement kind. -/
def effectsOf : BasicStmt → List Effect
  | BasicStmt.summary => [Effect.printText]
  | BasicStmt.fit _ => [Effect.printText]
  | BasicStmt.evaluate _ => [Effect.printText]
  | BasicStmt.printAccuracy => [Effect.printText]
  | BasicStmt.plotModel f => [Effect.writeFile f]
  | _ => []

/-- The optimizer keyword of a statement, when it is a compile call. -/
def optimizerOf : BasicStmt → Option String
  | BasicStmt.compile c => some c.optimizer
  | _ => none

/-- A top-level Python statement: either a basic statement or a try/except
with a body and a handler.  The notebooks contain only basic statements;
the try/except form exists in the embedding so that its absence from the
notebook programs is a statement about the source, not about the type. -/
inductive Stmt where
  | basic (b : BasicStmt)
  | tryExcept (body handler : List BasicStmt)
  deriving DecidableEq

/-- True when a program contains no try/except statement. -/
def noTryExcept (L : List Stmt) : Bool :=
  L.all fun s =>
    match s with
    | Stmt.basic _ => true
    | Stmt.tryExcept _ _ => false

/-- First error raised when running a list of basic statements under an
execution oracle exec that says which framework calls raise. -/
def firstErr {E : Type} (exec : BasicStmt → Option E) : List BasicStmt → Option E
  | [] => none
  | b :: rest =>
    match exec b with
    | some e => some e
    | none => firstErr exec rest

/-- Run one statement: a basic statement raises whatever exec says; a
try/except runs its body and, when the body raises, catches the error and
runs the handler instead. -/
def runStmt {E : Type} (exec : BasicStmt → Option E) : Stmt → Option E
  | Stmt.basic b => exec b
  | Stmt.tryExcept body handler =>
    match firstErr exec body with
    | none => none
    | some _ => firstErr exec handler

/-- Run a program top to bottom: a raised error stops execution at once.
Returns the statements that were started and the uncaught error, if any. -/
def runProgram {E : Type} (exec : BasicStmt → Option E) :
    List Stmt → List Stmt × Option E
  | [] => ([], none)
  | s :: rest =>
    match runStmt exec s with
    | some e => ([s], some e)
    | none => (s :: (runProgram exec rest).1, (runProgram exec rest).2)

/-- num_labels = len(np.unique(y_train)): the number of distinct labels. -/
def num_labels (ys : List Nat) : Nat := ys.dedup.length

/-- to_categorical(y) as both notebooks call it, with no num_classes
argument: the row width is max(y) + 1 and row i holds 1 at column y i and
0 elsewhere. -/
def to_categorical (ys : List Nat) : List (List Nat) :=
  ys.map fun y =>
    (List.range (ys.foldr max 0 + 1)).map fun j => if j = y then 1 else 0

/-- The per-pixel preprocessing x.astype(float32) / 255 of both notebooks,
modelled over the rationals. -/
def normalizePixel (v : Nat) : ℚ := (v : ℚ) / 255

/-- The ten MNIST digit labels, used as a concrete label list. -/
def digitsList : List Nat := [0, 1, 2, 3, 4, 5, 6, 7, 8, 9]

/-- An execution oracle under which the model.fit call raises error 7 and
every other statement succeeds. -/
def execFailFit : BasicStmt → Option Nat
  | BasicStmt.fit _ => some 7
  | _ => none

/-- The fold computing a list maximum is bounded by any bound on the list. -/
theorem foldrMax_le (ys : List Nat) (n : Nat) (h : ∀ y ∈ ys, y ≤ n) :
    ys.foldr max 0 ≤ n := by
  induction ys with
  | nil => exact Nat.zero_le n
  | cons a l ih =>
    simp only [List.foldr_cons]
    exact max_le (h a (List.mem_cons_self a l))
      (ih fun y hy => h y (List.mem_cons_of_mem a hy))

/-- Every member of a list is at most the folded maximum. -/
theorem le_foldrMax (ys : List Nat) (y : Nat) (h : y ∈ ys) :
    y ≤ ys.foldr max 0 := by
  induction ys with
  | nil => cases h
  | cons a l ih =>
    simp only [List.foldr_cons]
    rcases List.mem_cons.mp h with rfl | hmem
    · exact le_max_left _ _
    · exact le_trans (ih hmem) (le_max_right _ _)

/-- Mapping Stmt.basic over basic statements yields a try/except-free
program. -/
theorem noTryExcept_map_basic (L : List BasicStmt) :
    noTryExcept (L.map Stmt.basic) = true := by
  induction L with
  | nil => rfl
  | cons a l ih =>
    simp only [List.map_cons, noTryExcept, List.all_cons, Bool.true_and]
    exact ih

/-- Running a straight-line program whose statements up to index i succeed
and whose statement i raises e executes exactly the statements up to i and
returns e. -/
theorem runProgram_fail_prefix {E : Type} (exec : BasicStmt → Option E) :
    ∀ (L : List BasicStmt) (i : Nat) (e : E), i < L.length →
      (∀ j, j < i → exec (L.getD j BasicStmt.libImports) = none) →
      exec (L.getD i BasicStmt.libImports) = some e →
      runProgram exec (L.map Stmt.basic) =
        ((L.take (i + 1)).map Stmt.basic, some e) := by
  intro L
  induction L with
  | nil => intro i e hi _ _; exact absurd hi (by simp)
  | cons a l ih =>
    intro i e hi hbefore hfail
    cases i with
    | zero =>
      rw [List.getD_cons_zero] at hfail
      simp [runProgram, runStmt, hfail]
    | succ i =>
      have ha : exec a = none := by
        have h0 := hbefore 0 (Nat.succ_pos i)
        rwa [List.getD_cons_zero] at h0
      have hrec := ih i e (by simpa using hi)
        (fun j hj => by
          have hj1 := hbefore (j + 1) (Nat.succ_lt_succ hj)
          rwa [List.getD_cons_succ] at hj1)
        (by rwa [List.getD_cons_succ] at hfail)
      simp only [List.map_cons, runProgram, runStmt, ha, hrec,
        List.take_succ_cons]

/-- C1: as stated, the claim fails on the code: the claim asserts that every
per-branch layer has configuration (dilation included) identical between
the two notebooks, but the first Conv2D of the right branch of the
Y-Network uses dilation_rate 2 while the corresponding Sequential-stack
Conv2D uses the default dilation_rate 1, so not every Y-Network branch
equals the convolutional trunk of the Sequential model. -/
theorem c1_counterexample :
    branchLayers 2 ∈ yBranches ∧
    (branchLayers 2).getD 0 Layer.flatten ≠ (seqTrunk 10).getD 0 Layer.flatten ∧
    ¬ (∀ b ∈ yBranches, b = seqTrunk 10) := by
  decide

/-- C1 (amended): the per-branch layers of the two notebooks agree in
filters, kernel size, padding, activation and pooling placement: the left
branch equals the convolutional trunk of the Sequential stack exactly,
and the right branch differs from it only by dilation_rate 2 in place of
the default 1; after the branches, the softmax is a separate Activation
layer following Dense in the Sequential notebook but the activation
keyword of the Dense head in the Y-Network. -/
theorem c1_amended_branch_config (n : Nat) :
    branchLayers 1 = seqTrunk n ∧
    branchLayers 2 = (seqTrunk n).map (setDilation 2) ∧
    (branchLayers 2).map (setDilation 1) = seqTrunk n ∧
    (buildSeqModel n).drop 5 =
      [Layer.flatten, Layer.dense n none, Layer.activationLayer "softmax"] ∧
    headOf (yModel n) = some [Layer.flatten, Layer.dense n (some "softmax")] :=
  ⟨rfl, rfl, rfl, rfl, rfl⟩

/-- C1 (amended) at the concrete label count 10 computed on MNIST. -/
theorem c1_amended_branch_config_witness :
    branchLayers 1 = seqTrunk 10 ∧
    branchLayers 2 = (seqTrunk 10).map (setDilation 2) ∧
    (branchLayers 2).map (setDilation 1) = seqTrunk 10 ∧
    (buildSeqModel 10).drop 5 =
      [Layer.flatten, Layer.dense 10 none, Layer.activationLayer "softmax"] ∧
    headOf (yModel 10) = some [Layer.flatten, Layer.dense 10 (some "softmax")] :=
  c1_amended_branch_config 10

/-- C2: in each notebook the top-level program is the linear pipeline load
the dataset, build the layer graph, compile, fit, evaluate, print the
test accuracy, in this fixed order; compile precedes fit, fit precedes
evaluate, and each of compile, fit and evaluate occurs exactly once. -/
theorem c2_linear_pipeline :
    seqStmts.filterMap phase =
      List.replicate 8 Phase.load ++
        [Phase.build, Phase.compile, Phase.fit, Phase.evaluate, Phase.print] ∧
    yStmts.filterMap phase =
      List.replicate 8 Phase.load ++ List.replicate 5 Phase.build ++
        [Phase.compile, Phase.fit, Phase.evaluate, Phase.print] ∧
    seqStmts.countP isCompileStmt = 1 ∧
    seqStmts.countP isFitStmt = 1 ∧
    seqStmts.countP isEvalStmt = 1 ∧
    yStmts.countP isCompileStmt = 1 ∧
    yStmts.countP isFitStmt = 1 ∧
    yStmts.countP isEvalStmt = 1 ∧
    seqStmts.findIdx isCompileStmt < seqStmts.findIdx isFitStmt ∧
    seqStmts.findIdx isFitStmt < seqStmts.findIdx isEvalStmt ∧
    yStmts.findIdx isCompileStmt < yStmts.findIdx isFitStmt ∧
    yStmts.findIdx isFitStmt < yStmts.findIdx isEvalStmt := by
  decide

/-- C3: the repository constructs exactly two models, both trained and
evaluated on MNIST: the Sequential notebook a stack of three Conv2D
layers with two poolings, then Flatten, Dense(num_labels) and a softmax
Activation, over a single input; the Y-Network two branches whose outputs
are concatenated, then Flatten and a softmax Dense head, over two inputs. -/
theorem c3_two_models (n : Nat) :
    (repositoryModels n).length = 2 ∧
    countConv (buildSeqModel n) = 3 ∧
    countPool (buildSeqModel n) = 2 ∧
    (buildSeqModel n).drop 5 =
      [Layer.flatten, Layer.dense n none, Layer.activationLayer "softmax"] ∧
    numInputsOf (seqModel n) = 1 ∧
    numInputsOf (yModel n) = 2 ∧
    mergeOf (yModel n) = some MergeOp.concatenate ∧
    headOf (yModel n) = some [Layer.flatten, Layer.dense n (some "softmax")] ∧
    BasicStmt.loadData Dataset.mnist ∈ seqStmts ∧
    BasicStmt.loadData Dataset.mnist ∈ yStmts ∧
    seqStmts.countP isFitStmt = 1 ∧ seqStmts.countP isEvalStmt = 1 ∧
    yStmts.countP isFitStmt = 1 ∧ yStmts.countP isEvalStmt = 1 :=
  ⟨rfl, rfl, rfl, rfl, rfl, rfl, rfl, rfl,
   by decide, by decide, by decide, by decide, by decide, by decide⟩

/-- C3 at the concrete label count 10 computed on MNIST. -/
theorem c3_two_models_witness :
    (repositoryModels 10).length = 2 ∧
    countConv (buildSeqModel 10) = 3 ∧
    countPool (buildSeqModel 10) = 2 ∧
    (buildSeqModel 10).drop 5 =
      [Layer.flatten, Layer.dense 10 none, Layer.activationLayer "softmax"] ∧
    numInputsOf (seqModel 10) = 1 ∧
    numInputsOf (yModel 10) = 2 ∧
    mergeOf (yModel 10) = some MergeOp.concatenate ∧
    headOf (yModel 10) = some [Layer.flatten, Layer.dense 10 (some "softmax")] ∧
    BasicStmt.loadData Dataset.mnist ∈ seqStmts ∧
    BasicStmt.loadData Dataset.mnist ∈ yStmts ∧
    seqStmts.countP isFitStmt = 1 ∧ seqStmts.countP isEvalStmt = 1 ∧
    yStmts.countP isFitStmt = 1 ∧ yStmts.countP isEvalStmt = 1 :=
  c3_two_models 10

/-- C4: with depth = 3, each branch-construction loop of the Y-Network
produces exactly three Conv2D layers (filters 64, kernel size 3, padding
same, relu activation) with a MaxPooling2D after the first and second but
not after the third, so each branch is Conv-Pool-Conv-Pool-Conv. -/
theorem c4_branch_structure :
    depth = 3 ∧
    branchLayers 1 =
      [Layer.conv2D 64 3 "same" "relu" 1, Layer.maxPooling2D,
       Layer.conv2D 64 3 "same" "relu" 1, Layer.maxPooling2D,
       Layer.conv2D 64 3 "same" "relu" 1] ∧
    branchLayers 2 =
      [Layer.conv2D 64 3 "same" "relu" 2, Layer.maxPooling2D,
       Layer.conv2D 64 3 "same" "relu" 2, Layer.maxPooling2D,
       Layer.conv2D 64 3 "same" "relu" 2] ∧
    countConv (branchLayers 1) = 3 ∧ countPool (branchLayers 1) = 2 ∧
    countConv (branchLayers 2) = 3 ∧ countPool (branchLayers 2) = 2 := by
  decide

/-- C5: in both notebooks, y_train and y_test are converted with
to_categorical before any model call, and on label lists with the MNIST
digit range (each label below 10, every digit occurring) every converted
row is one-hot — exactly one entry 1 and all others 0 — with row width
equal to num_labels, the number of distinct training labels. -/
theorem c5_one_hot_labels (ys : List Nat)
    (h10 : ∀ y ∈ ys, y < 10) (hall : ∀ d, d < 10 → d ∈ ys) :
    (∀ row ∈ to_categorical ys,
        row.length = num_labels ys ∧ row.count 1 = 1 ∧
        ∀ v ∈ row, v = 0 ∨ v = 1) ∧
    (∀ i ∈ List.range seqStmts.length,
        isToCat (seqStmts.getD i BasicStmt.libImports) = true →
        i < seqStmts.findIdx isModelCall) ∧
    (∀ i ∈ List.range yStmts.length,
        isToCat (yStmts.getD i BasicStmt.libImports) = true →
        i < yStmts.findIdx isModelCall) := by
  have hmax : ys.foldr max 0 = 9 := by
    have h1 : ys.foldr max 0 ≤ 9 :=
      foldrMax_le ys 9 fun y hy => Nat.lt_succ_iff.mp (h10 y hy)
    have h2 : (9 : Nat) ≤ ys.foldr max 0 := le_foldrMax ys 9 (hall 9 (by norm_num))
    omega
  have hcard : ys.dedup.length = 10 := by
    have hfs : ys.toFinset = Finset.range 10 := by
      ext a
      simp only [List.mem_toFinset, Finset.mem_range]
      exact ⟨fun h => h10 a h, fun h => hall a h⟩
    have hc := List.card_toFinset ys
    rw [hfs, Finset.card_range] at hc
    omega
  refine ⟨?_, by decide, by decide⟩
  intro row hrow
  simp only [to_categorical, List.mem_map] at hrow
  obtain ⟨y, hy, rfl⟩ := hrow
  have hylt : y < 10 := h10 y hy
  rw [hmax]
  refine ⟨?_, ?_, ?_⟩
  · simp [num_labels, hcard]
  · interval_cases y <;> decide
  · intro v hv
    simp only [List.mem_map] at hv
    obtain ⟨j, _, rfl⟩ := hv
    by_cases hjy : j = y
    · subst hjy; simp
    · simp [hjy]

/-- C5 at the concrete MNIST digit label list 0..9. -/
theorem c5_one_hot_labels_witness :
    (∀ y ∈ digitsList, y < 10) ∧ (∀ d, d < 10 → d ∈ digitsList) ∧
    (∀ row ∈ to_categorical digitsList,
        row.length = num_labels digitsList ∧ row.count 1 = 1 ∧
        ∀ v ∈ row, v = 0 ∨ v = 1) :=
  ⟨by decide, by decide,
   (c5_one_hot_labels digitsList (by decide) (by decide)).1⟩

/-- C6: neither notebook catches or recovers from any exception: the
notebook programs contain no try/except, and under any execution oracle,
when the statements before index i succeed and statement i raises error e,
running the program executes exactly the statements up to i and surfaces e
unchanged — no statement after the failure runs. -/
theorem c6_no_recovery {E : Type} (exec : BasicStmt → Option E)
    (L : List BasicStmt) (_hL : L = seqStmts ∨ L = yStmts)
    (i : Nat) (e : E) (hi : i < L.length)
    (hbefore : ∀ j, j < i → exec (L.getD j BasicStmt.libImports) = none)
    (hfail : exec (L.getD i BasicStmt.libImports) = some e) :
    noTryExcept (L.map Stmt.basic) = true ∧
    runProgram exec (L.map Stmt.basic) =
      ((L.take (i + 1)).map Stmt.basic, some e) :=
  ⟨noTryExcept_map_basic L, runProgram_fail_prefix exec L i e hi hbefore hfail⟩

/-- C6 under the oracle that makes the model.fit call of cnn-mnist.ipynb
raise error 7 at statement index 13. -/
theorem c6_no_recovery_witness :
    (seqStmts = seqStmts ∨ seqStmts = yStmts) ∧
    13 < seqStmts.length ∧
    (∀ j, j < 13 → execFailFit (seqStmts.getD j BasicStmt.libImports) = none) ∧
    execFailFit (seqStmts.getD 13 BasicStmt.libImports) = some 7 ∧
    noTryExcept (seqStmts.map Stmt.basic) = true ∧
    runProgram execFailFit (seqStmts.map Stmt.basic) =
      ((seqStmts.take 14).map Stmt.basic, some 7) := by
  refine ⟨Or.inl rfl, by decide, by decide, by decide, ?_, ?_⟩
  · exact (c6_no_recovery execFailFit seqStmts (Or.inl rfl) 13 7
      (by decide) (by decide) (by decide)).1
  · exact (c6_no_recovery execFailFit seqStmts (Or.inl rfl) 13 7
      (by decide) (by decide) (by decide)).2

/-- C7: neither notebook writes a file: the only file-producing call,
plot_model with a to_file argument, occurs only among the commented-out
statements; no executed statement is a plot_model call, and every effect
of every executed statement is printed text. -/
theorem c7_no_file_output :
    BasicStmt.plotModel "cnn-mnist.png" ∈ seqCommented ∧
    BasicStmt.plotModel "cnn-y-network.png" ∈ yCommented ∧
    seqStmts.countP isPlotModel = 0 ∧
    yStmts.countP isPlotModel = 0 ∧
    (∀ s ∈ seqStmts, ∀ eff ∈ effectsOf s, eff = Effect.printText) ∧
    (∀ s ∈ yStmts, ∀ eff ∈ effectsOf s, eff = Effect.printText) := by
  decide

/-- C8: both compile calls use the sgd optimizer and the
categorical_crossentropy loss; no compile statement in either notebook
configures the adam optimizer, even though comment lines in both compile
cells mention an Adam optimizer. -/
theorem c8_sgd_not_adam :
    seqCompileCfg.optimizer = "sgd" ∧
    yCompileCfg.optimizer = "sgd" ∧
    seqCompileCfg.loss = "categorical_crossentropy" ∧
    yCompileCfg.loss = "categorical_crossentropy" ∧
    (∀ s ∈ seqStmts ++ yStmts, optimizerOf s ≠ some "adam") ∧
    (∀ s ∈ seqStmts ++ yStmts,
        optimizerOf s = none ∨ optimizerOf s = some "sgd") ∧
    "use of adam optimizer" ∈ seqCommentLines ∧
    "classifier loss, Adam optimizer, classifier accuracy" ∈ yCommentLines := by
  decide

/-- C9: each raw pixel value v ≤ 255 is mapped by the preprocessing to
v / 255, which lies in the closed interval from 0 to 1; in both
notebooks the normalization is the last statement assigning x_train
(resp. x_test) and it precedes the fit and evaluate calls, so the arrays
are not modified again before being passed to them. -/
theorem c9_pixels_unit_interval (v : Nat) (hv : v ≤ 255) :
    0 ≤ normalizePixel v ∧ normalizePixel v ≤ 1 ∧
    normalizedLast seqStmts Var.x_train = true ∧
    normalizedLast seqStmts Var.x_test = true ∧
    normalizedLast yStmts Var.x_train = true ∧
    normalizedLast yStmts Var.x_test = true := by
  refine ⟨?_, ?_, by decide, by decide, by decide, by decide⟩
  · unfold normalizePixel
    positivity
  · unfold normalizePixel
    rw [div_le_one (by norm_num)]
    exact_mod_cast hv

/-- C9 at the concrete pixel value 128. -/
theorem c9_pixels_unit_interval_witness :
    128 ≤ 255 ∧
    (0 ≤ normalizePixel 128 ∧ normalizePixel 128 ≤ 1 ∧
     normalizedLast seqStmts Var.x_train = true ∧
     normalizedLast seqStmts Var.x_test = true ∧
     normalizedLast yStmts Var.x_train = true ∧
     normalizedLast yStmts Var.x_test = true) :=
  ⟨by norm_num, c9_pixels_unit_interval 128 (by norm_num)⟩

/-- C10: the two Y-Network branches always receive identical data: fit is
called with input list [x_train, x_train] and validation data
([x_test, x_test], y_test), evaluate with [x_test, x_test], so every
entry of each input list is the same array; the branches themselves
differ only in dilation_rate — resetting the right branch dilation to 1
yields the left branch — and they are not equal as declared. -/
theorem c10_identical_branch_inputs :
    yFit.inputs = [Var.x_train, Var.x_train] ∧
    yFit.validation = some ([Var.x_test, Var.x_test], Var.y_test) ∧
    yEval.inputs = [Var.x_test, Var.x_test] ∧
    (∀ a ∈ yFit.inputs, a = Var.x_train) ∧
    (∀ a ∈ yEval.inputs, a = Var.x_test) ∧
    (branchLayers 2).map (setDilation 1) = branchLayers 1 ∧
    branchLayers 2 ≠ branchLayers 1 ∧
    BasicStmt.fit yFit ∈ yStmts ∧
    BasicStmt.evaluate yEval ∈ yStmts := by
  decide
